import Mathlib

/-!
Verification of the resume-analyzer backend core: the session registry
(`sessionManager.js`), the SSE connection registry (`sseManager.js`), the
analysis retry workflow (`routes/sse.js` and `routes/process.js`) and the
Gemini response parsing (`geminiService.js`), shallowly embedded as
executable Lean definitions.  Timestamps are naturals (milliseconds),
JavaScript objects are structures, Maps/Sets are association lists, and
the external collaborators (the Gemini call, `JSON.parse`) appear as
explicit outcome lists / oracle functions.
-/

namespace ResumeAnalyzer

/-! ## Strings: JavaScript `String.prototype.includes` -/

/-- Does `pat` occur as a contiguous run inside `s`?  (List form.) -/
def occursIn (pat : List Char) : List Char → Bool
  | [] => pat.isEmpty
  | c :: rest => pat.isPrefixOf (c :: rest) || occursIn pat rest

/-- JavaScript `s.includes(pat)`. -/
def containsSub (s pat : String) : Bool :=
  occursIn pat.toList s.toList

/-! ## Sessions (`sessionManager.js` data model)

A session object as created by `createSession` and mutated by
`updateSession`.  `feedback` stands for the opaque parsed feedback payload
(only its presence matters to the workflow claims). -/

structure Session where
  sessionId : String
  status : String
  createdAt : Nat
  updatedAt : Nat
  expiresAt : Nat
  retryCount : Nat
  lastError : Option String
  feedback : Option String
deriving DecidableEq, Repr

/-- `maxRetries` constant from `analyzeWithRetry` in both route files. -/
def maxRetries : Nat := 3

/-! ## Gemini error classification (`geminiService.js`, `analyzeResumeStreaming`)

`analyzeResumeStreaming` converts a provider error with an HTTP-like
`status` into a fixed message; `analyzeWithRetry` in `routes/sse.js` then
decides retryability from substrings of that message. -/

/-- The message thrown by the catch block of `analyzeResumeStreaming` for a
provider error with the given optional `status` and raw message. -/
def geminiErrorMessage (status : Option Nat) (rawMessage : String) : String :=
  match status with
  | some n =>
      if n = 404 then
        "AI model not found. Please check if the model name is correct and available."
      else if n = 401 then
        "Unauthorized access to AI service. Please check your API key."
      else if n = 429 then
        "Rate limit exceeded. Please try again later."
      else if 500 ≤ n then
        "AI service temporarily unavailable. Please try again later."
      else "AI analysis failed: " ++ rawMessage
  | none => "AI analysis failed: " ++ rawMessage

/-- `isRetryableError` from `analyzeWithRetry` in `routes/sse.js`:
an error is retryable unless its message mentions a missing model, an
unauthorized response, or the API key. -/
def isRetryableError (msg : String) : Bool :=
  !(containsSub msg "model not found" || containsSub msg "Unauthorized" ||
    containsSub msg "API key")

/-! ## The analysis retry loop (`analyzeWithRetry`)

One Gemini call either succeeds with a feedback payload or throws with a
message; on a `model not found` message the service may be reinitialized
(`reinitializeModel`), whose success is recorded per attempt. -/

inductive AttemptOutcome where
  | ok (feedback : String)
  | fail (message : String) (reinitSuccess : Bool)
deriving DecidableEq, Repr

/-- The payload handed to `eventBroadcaster.broadcastError`. -/
structure ErrorPayload where
  code : String
  stage : String
  retryable : Bool
  retryCount : Nat
deriving DecidableEq, Repr

/-- Trace of one run of the sse-route `analyzeWithRetry`: the final
session, every session state written through `updateSession` (in order),
every backoff delay awaited, and every error payload broadcast. -/
structure RunResult where
  final : Session
  stored : List Session
  sleeps : List Nat
  errors : List ErrorPayload
deriving DecidableEq, Repr

/-- The exponential backoff delay computed before retry attempt
`retryCount`: `Math.min(1000 * Math.pow(2, retryCount - 1), 10000)`. -/
def retryDelay (retryCount : Nat) : Nat :=
  min (1000 * 2 ^ (retryCount - 1)) 10000

/-- `analyzeWithRetry` from `routes/sse.js` (the upload-and-process
workflow).  The list of attempt outcomes models the successive results of
`geminiService.analyzeResumeStreaming`; the recursion mirrors the
self-call with `retryCount + 1`.  An empty outcome list ends the run
without further effect (the collaborator always yields an outcome in
practice). -/
def analyzeWithRetrySse (now : Nat) : Session → Nat → List AttemptOutcome → RunResult
  | s, _, [] => ⟨s, [], [], []⟩
  | s, retryCount, outcome :: rest =>
    let s1 : Session :=
      if 0 < retryCount then
        { s with status := "retrying", retryCount := retryCount, updatedAt := now }
      else
        { s with status := "analyzing", updatedAt := now }
    let preSleeps : List Nat := if 0 < retryCount then [retryDelay retryCount] else []
    match outcome with
    | .ok fb =>
      let s2 : Session := { s1 with status := "completed", feedback := some fb, updatedAt := now }
      ⟨s2, [s1, s2], preSleeps, []⟩
    | .fail msg reinitSuccess =>
      if containsSub msg "model not found" && reinitSuccess && decide (retryCount < maxRetries) then
        let r := analyzeWithRetrySse now s1 (retryCount + 1) rest
        ⟨r.final, s1 :: r.stored, preSleeps ++ r.sleeps, r.errors⟩
      else if isRetryableError msg && decide (retryCount < maxRetries) then
        let r := analyzeWithRetrySse now s1 (retryCount + 1) rest
        ⟨r.final, s1 :: r.stored, preSleeps ++ r.sleeps, r.errors⟩
      else
        let s2 : Session :=
          { s1 with status := "error", lastError := some msg,
                    retryCount := retryCount + 1, updatedAt := now }
        ⟨s2, [s1, s2], preSleeps,
          [⟨"AI_ANALYSIS_FAILED", "analysis", isRetryableError msg, retryCount + 1⟩]⟩

/-- Trace of one run of the process-route `analyzeWithRetry`
(`routes/process.js`), which never touches the session store: backoff
delays, broadcast error payloads, and the completed feedback if any. -/
structure ProcRunResult where
  sleeps : List Nat
  errors : List ErrorPayload
  completed : Option String
deriving DecidableEq, Repr

/-- `analyzeWithRetry` from `routes/process.js`: every error is retried
while `retryCount < maxRetries`, with no classification at all. -/
def analyzeWithRetryProc : Nat → List AttemptOutcome → ProcRunResult
  | _, [] => ⟨[], [], none⟩
  | retryCount, outcome :: rest =>
    let preSleeps : List Nat := if 0 < retryCount then [retryDelay retryCount] else []
    match outcome with
    | .ok fb => ⟨preSleeps, [], some fb⟩
    | .fail _ _ =>
      if retryCount < maxRetries then
        let r := analyzeWithRetryProc (retryCount + 1) rest
        ⟨preSleeps ++ r.sleeps, r.errors, r.completed⟩
      else
        ⟨preSleeps, [⟨"AI_ANALYSIS_FAILED", "analysis", false, retryCount + 1⟩], none⟩

/-! ## Manual retry routes -/

inductive RetryResponse where
  /-- 404 with code SESSION_NOT_FOUND. -/
  | notFound
  /-- 400 with code INVALID_SESSION_STATE. -/
  | invalidState
  /-- 400 with code MAX_RETRIES_EXCEEDED. -/
  | maxRetriesExceeded
  /-- 200 success with the new retry count. -/
  | accepted (retryCount : Nat)
deriving DecidableEq, Repr

/-- Result of a manual-retry HTTP handler: the response, the session as
stored after the handler ran (`none` when the session was absent), and
whether the handler re-invoked the processing workflow. -/
structure RouteOutcome where
  response : RetryResponse
  session : Option Session
  restartsWorkflow : Bool
deriving DecidableEq, Repr

/-- POST `/api/events/:sessionId/retry` (`routes/sse.js`), given the
result of `sessionManager.getSession`.  It never re-invokes the
processing workflow itself. -/
def sseRetryRoute (now : Nat) (session : Option Session) : RouteOutcome :=
  match session with
  | none => ⟨.notFound, none, false⟩
  | some s =>
    if s.status ≠ "error" then ⟨.invalidState, some s, false⟩
    else
      let newRetryCount := s.retryCount + 1
      if 3 < newRetryCount then ⟨.maxRetriesExceeded, some s, false⟩
      else
        ⟨.accepted newRetryCount,
          some { s with status := "retrying", retryCount := newRetryCount,
                        lastError := none, updatedAt := now },
          false⟩

/-- POST `/api/process/:sessionId/retry` (`routes/process.js`): no status
check and no retry-count cap; it always increments `retryCount`, clears
`lastError`, sets `retrying` and restarts `processResumeWorkflow` (which
begins again at the extraction stage). -/
def processRetryRoute (now : Nat) (session : Option Session) : RouteOutcome :=
  match session with
  | none => ⟨.notFound, none, false⟩
  | some s =>
    ⟨.accepted (s.retryCount + 1),
      some { s with status := "retrying", retryCount := s.retryCount + 1,
                    lastError := none, updatedAt := now },
      true⟩

/-! ## Session store (`sessionManager.js`)

The `sessions` Map is an association list from session id to the session
value; `now` is the clock read by `new Date()`. -/

/-- `isSessionExpired`: `now > expiresAt` (a session object always carries
`expiresAt` here, so the missing-field branch does not arise). -/
def isSessionExpired (now : Nat) (s : Session) : Bool :=
  decide (s.expiresAt < now)

structure SessionStore where
  sessions : List (String × Session)
  now : Nat
deriving DecidableEq, Repr

/-- `Map.prototype.get`. -/
def lookupSession (store : List (String × Session)) (id : String) : Option Session :=
  match store.find? (fun p => p.1 == id) with
  | some p => some p.2
  | none => none

/-- `Map.prototype.delete`. -/
def eraseSession (store : List (String × Session)) (id : String) :
    List (String × Session) :=
  store.filter (fun p => p.1 != id)

/-- `Map.prototype.set` for a possibly-present key. -/
def setSessionEntry (store : List (String × Session)) (id : String) (s : Session) :
    List (String × Session) :=
  if (store.find? (fun p => p.1 == id)).isSome then
    store.map (fun p => if p.1 == id then (id, s) else p)
  else store ++ [(id, s)]

/-- `SessionManager.getSession`: absent or expired sessions read as
`none`; an expired session is deleted on the way (lazy eviction); an
unexpired one is returned (as a shallow copy, `{ ...session }` — object
identity is treated in the heap model below). -/
def getSession (st : SessionStore) (id : String) : Option Session × SessionStore :=
  match lookupSession st.sessions id with
  | none => (none, st)
  | some s =>
    if isSessionExpired st.now s then
      (none, { st with sessions := eraseSession st.sessions id })
    else (some s, st)

/-- The partial-update object handed to `updateSession`; `none` fields
are absent from the update. -/
structure UpdateData where
  status : Option String
  retryCount : Option Nat
  lastError : Option (Option String)
  feedback : Option (Option String)
  expiresAt : Option Nat
deriving DecidableEq, Repr

/-- The merge `{ ...session, ...updateData, updatedAt: new Date(),
sessionId }`: update fields win, `updatedAt` is always refreshed, and
`sessionId` can never be overwritten. -/
def applyUpdate (s : Session) (u : UpdateData) (now : Nat) : Session :=
  { sessionId := s.sessionId
    status := u.status.getD s.status
    createdAt := s.createdAt
    updatedAt := now
    expiresAt := u.expiresAt.getD s.expiresAt
    retryCount := u.retryCount.getD s.retryCount
    lastError := u.lastError.getD s.lastError
    feedback := u.feedback.getD s.feedback }

/-- `SessionManager.updateSession`: fails on an absent or expired session
(without deleting an expired one), otherwise stores the merged session. -/
def updateSession (st : SessionStore) (id : String) (u : UpdateData) :
    Bool × SessionStore :=
  match lookupSession st.sessions id with
  | none => (false, st)
  | some s =>
    if isSessionExpired st.now s then (false, st)
    else
      (true,
        { st with sessions := setSessionEntry st.sessions id (applyUpdate s u st.now) })

/-! ## Object-identity model of the copy made by `getSession` (frame claim)

JavaScript objects live on a heap; the `sessions` Map stores references.
`getSession` returns `{ ...session }`, a freshly allocated object whose
top-level fields equal those of the stored one. -/

structure ObjHeap where
  objs : List (Nat × Session)
  next : Nat
deriving DecidableEq, Repr

def heapGet (h : ObjHeap) (r : Nat) : Option Session :=
  match h.objs.find? (fun p => p.1 == r) with
  | some p => some p.2
  | none => none

/-- Allocate a fresh object holding `s`; returns its reference. -/
def heapAlloc (h : ObjHeap) (s : Session) : Nat × ObjHeap :=
  (h.next, ⟨h.objs ++ [(h.next, s)], h.next + 1⟩)

/-- Overwrite the object at reference `r` (mutation of one object). -/
def heapWrite (h : ObjHeap) (r : Nat) (s : Session) : ObjHeap :=
  { h with objs := h.objs.map (fun p => if p.1 == r then (r, s) else p) }

/-- Every allocated reference is below `next` (so `next` is fresh). -/
def HeapWF (h : ObjHeap) : Prop :=
  ∀ p ∈ h.objs, p.1 < h.next

instance (h : ObjHeap) : Decidable (HeapWF h) :=
  inferInstanceAs (Decidable (∀ p ∈ h.objs, p.1 < h.next))

structure RefStore where
  heap : ObjHeap
  table : List (String × Nat)
  now : Nat
deriving DecidableEq, Repr

def lookupRef (table : List (String × Nat)) (id : String) : Option Nat :=
  match table.find? (fun p => p.1 == id) with
  | some p => some p.2
  | none => none

/-- `SessionManager.getSession` at the object level: on a hit with an
unexpired session it allocates and returns the copy `{ ...session }`;
the Map keeps pointing at the original object. -/
def getSessionRef (st : RefStore) (id : String) : Option Nat × RefStore :=
  match lookupRef st.table id with
  | none => (none, st)
  | some r =>
    match heapGet st.heap r with
    | none => (none, st)
    | some s =>
      if isSessionExpired st.now s then
        (none, { st with table := st.table.filter (fun q => q.1 != id) })
      else
        let a := heapAlloc st.heap s
        (some a.1, { st with heap := a.2 })

/-! ## SSE connection registry (`sseManager.js`)

`connections` is `Map<sessionId, Set<res>>`.  A response stream is
modelled by its identity `rid` plus the transport flags the code reads
(`destroyed`, `finished`) and whether a `res.write` call would throw. -/

structure SSEConn where
  rid : Nat
  destroyed : Bool
  finished : Bool
  writeRaises : Bool
deriving DecidableEq, Repr

abbrev Connections := List (String × List SSEConn)

def lookupConns (m : Connections) (sid : String) : Option (List SSEConn) :=
  match m.find? (fun p => p.1 == sid) with
  | some p => some p.2
  | none => none

def deleteKey (m : Connections) (sid : String) : Connections :=
  m.filter (fun p => p.1 != sid)

def setKey (m : Connections) (sid : String) (l : List SSEConn) : Connections :=
  if (m.find? (fun p => p.1 == sid)).isSome then
    m.map (fun p => if p.1 == sid then (sid, l) else p)
  else m ++ [(sid, l)]

/-- `SSEManager.sendEvent`: refuses destroyed/finished streams, writes
otherwise, and catches any write error itself (so it never throws).
Returns whether the event text was actually written. -/
def sendEvent (c : SSEConn) : Bool :=
  if c.destroyed || c.finished then false else !c.writeRaises

/-- `SSEManager.createConnection`: rejects a falsy session id or missing
response object, otherwise registers the stream under the id (a Set adds
each object at most once) and reports success. -/
def createConnection (m : Connections) (sid : String) (res : Option SSEConn) :
    Bool × Connections :=
  match res with
  | none => (false, m)
  | some c =>
    if sid == "" then (false, m)
    else
      let l := (lookupConns m sid).getD []
      let l1 := if l.any (fun x => x.rid == c.rid) then l else l ++ [c]
      (true, setKey m sid l1)

/-- `SSEManager.removeConnection`: drops the stream from the session
set and removes the Map entry when the set becomes empty. -/
def removeConnection (m : Connections) (sid : String) (c : SSEConn) : Connections :=
  match lookupConns m sid with
  | none => m
  | some l =>
    let l1 := l.filter (fun x => x.rid != c.rid)
    if l1.isEmpty then deleteKey m sid else setKey m sid l1

/-- The loop body of `broadcastToSession` over the session set: streams
found destroyed/finished are collected as dead; live streams get
`sendEvent` (whose write failures are swallowed inside `sendEvent`, so
the surrounding `catch` never collects them).  Returns the rids actually
written to and the dead list, in iteration order. -/
def broadcastScan : List SSEConn → List Nat × List SSEConn
  | [] => ([], [])
  | c :: rest =>
    let r := broadcastScan rest
    if !c.destroyed && !c.finished then
      (if sendEvent c then c.rid :: r.1 else r.1, r.2)
    else
      (r.1, c :: r.2)

/-- `SSEManager.broadcastToSession`: no-op on falsy arguments or a
missing/empty subscriber set; otherwise scans the set and removes every
dead stream via `removeConnection`.  Returns the new map and the rids the
event was delivered to. -/
def broadcastToSession (m : Connections) (sid eventType : String) :
    Connections × List Nat :=
  if sid == "" || eventType == "" then (m, [])
  else
    match lookupConns m sid with
    | none => (m, [])
    | some l =>
      if l.isEmpty then (m, [])
      else
        let r := broadcastScan l
        (r.2.foldl (fun acc c => removeConnection acc sid c) m, r.1)

/-- One key of `sendHeartbeat`: heartbeat every live stream and
remove the dead ones via `removeConnection`. -/
def heartbeatKey (m : Connections) (sid : String) (l : List SSEConn) : Connections :=
  (l.filter (fun c => c.destroyed || c.finished)).foldl
    (fun acc c => removeConnection acc sid c) m

/-- `SSEManager.sendHeartbeat`: iterate all entries, pruning dead
streams per session. -/
def sendHeartbeat (m : Connections) : Connections :=
  m.foldl (fun acc p => heartbeatKey acc p.1 p.2) m

/-- `SSEManager.cleanupDeadConnections`: drop destroyed/finished streams
from each set and delete entries whose set became empty. -/
def cleanupDeadConnections (m : Connections) : Connections :=
  (m.map (fun p => (p.1, p.2.filter (fun c => !(c.destroyed || c.finished))))).filter
    (fun p => !p.2.isEmpty)

/-- `SSEManager.closeSessionConnections`: after notifying the streams it
deletes the whole entry (an absent entry is a no-op). -/
def closeSessionConnections (m : Connections) (sid : String) : Connections :=
  match lookupConns m sid with
  | none => m
  | some _ => deleteKey m sid

/-- `SSEManager.getConnectionCount`. -/
def getConnectionCount (m : Connections) (sid : String) : Nat :=
  ((lookupConns m sid).getD []).length

/-- The registry invariant: no session id is mapped to an empty set. -/
def NoEmptyBuckets (m : Connections) : Prop :=
  ∀ p ∈ m, p.2 ≠ []

/-! ## Gemini response parsing (`geminiService.js`)

A minimal JSON value type; `JSON.parse` itself is an external builtin and
enters as an oracle `String → Option Json` (`none` models a parse
exception). -/

inductive Json where
  | null
  | bool (b : Bool)
  | num (n : Int)
  | str (s : String)
  | arr (elems : List Json)
  | obj (fields : List (String × Json))

/-- JavaScript truthiness of a parsed JSON value. -/
def Json.truthy : Json → Bool
  | .null => false
  | .bool b => b
  | .num n => n != 0
  | .str s => !(s == "")
  | .arr _ => true
  | .obj _ => true

/-- Property access `j[k]` on a parsed value (`none` = `undefined`). -/
def Json.getField : Json → String → Option Json
  | .obj fields, k => (fields.find? (fun p => p.1 == k)).map (fun p => p.2)
  | _, _ => none

def Json.fieldTruthy (j : Json) (k : String) : Bool :=
  match j.getField k with
  | some v => v.truthy
  | none => false

def Json.isArr : Json → Bool
  | .arr _ => true
  | _ => false

def Json.fieldIsArray (j : Json) (k : String) : Bool :=
  match j.getField k with
  | some v => v.isArr
  | none => false

/-- `GeminiService.validateFeedbackStructure`, as a boolean (`false`
models the thrown validation error). -/
def validateFeedbackStructure (feedback : Json) : Bool :=
  feedback.fieldTruthy "clarity" && feedback.fieldTruthy "grammar" &&
  feedback.fieldTruthy "skills" && feedback.fieldTruthy "improvements" &&
  (match feedback.getField "clarity" with
   | some c => c.fieldTruthy "score" && c.fieldIsArray "suggestions"
   | none => false) &&
  (match feedback.getField "grammar" with
   | some g => g.fieldTruthy "score" && g.fieldIsArray "corrections"
   | none => false) &&
  (match feedback.getField "skills" with
   | some sk => sk.fieldIsArray "relevantSkills"
   | none => false) &&
  feedback.fieldIsArray "improvements"

/-- `GeminiService.getFallbackFeedback`: the fixed placeholder feedback. -/
def getFallbackFeedback : Json :=
  .obj [
    ("clarity", .obj [
      ("score", .num 5),
      ("suggestions", .arr [.str "Unable to analyze clarity - please try again"]),
      ("strengths", .arr []),
      ("weaknesses", .arr [])]),
    ("grammar", .obj [
      ("score", .num 5),
      ("corrections", .arr [.str "Unable to analyze grammar - please try again"]),
      ("improvements", .arr [])]),
    ("skills", .obj [
      ("relevantSkills", .arr []),
      ("missingSkills", .arr []),
      ("recommendations", .arr [.str "Unable to analyze skills - please try again"])]),
    ("improvements", .arr [
      .obj [
        ("category", .str "content"),
        ("priority", .str "medium"),
        ("suggestion", .str "Analysis failed - please try uploading your resume again"),
        ("example", .str "Ensure your PDF is not password protected and contains readable text")]])]

/-- `String.prototype.trim`: strip leading and trailing whitespace. -/
def jsTrim (s : List Char) : List Char :=
  ((s.dropWhile Char.isWhitespace).reverse.dropWhile Char.isWhitespace).reverse

/-- `String.prototype.indexOf` for a single character, on char lists. -/
def firstIndexOf (s : List Char) (c : Char) : Option Nat :=
  s.findIdx? (fun x => x == c)

/-- `String.prototype.lastIndexOf` for a single character. -/
def lastIndexOf (s : List Char) (c : Char) : Option Nat :=
  match s.reverse.findIdx? (fun x => x == c) with
  | some k => some (s.length - 1 - k)
  | none => none

/-- `String.prototype.substring(a, b)`: clamps to the length and swaps
the endpoints when given in reverse order. -/
def substringJs (s : List Char) (a b : Nat) : List Char :=
  (s.take (max a b)).drop (min a b)

/-- `GeminiService.parseResponse` with `JSON.parse` as the oracle
`jsonParse`: trim, cut from the first `\x7b` to the last `\x7d`, parse
and validate; every failure path yields the fallback feedback, and the
function is total (it never throws to its caller). -/
def parseResponse (jsonParse : String → Option Json) (response : String) : Json :=
  let clean := jsTrim response.toList
  match firstIndexOf clean '\x7b', lastIndexOf clean '\x7d' with
  | some jsonStart, some jsonEnd =>
    let jsonString := String.mk (substringJs clean jsonStart (jsonEnd + 1))
    match jsonParse jsonString with
    | some parsed =>
      if validateFeedbackStructure parsed then parsed else getFallbackFeedback
    | none => getFallbackFeedback
  | _, _ => getFallbackFeedback

/-! ## Concrete fixtures used by counterexamples and witnesses -/

/-- A fresh post-extraction session, as right before the analysis stage. -/
def sampleSession : Session := ⟨"S1", "extracted", 0, 0, 1000, 0, none, none⟩

def unauthorizedMsg : String := geminiErrorMessage (some 401) ""

def notFoundMsg : String := geminiErrorMessage (some 404) ""

def rateLimitedMsg : String := geminiErrorMessage (some 429) ""

/-- Four consecutive rate-limited (retryable) analysis failures. -/
def fourRetryableFailures : List AttemptOutcome :=
  List.replicate 4 (.fail rateLimitedMsg false)

/-- C5 part 1: entering any retry attempt `n ≥ 1` first awaits exactly
`min (1000 * 2 ^ (n - 1)) 10000` milliseconds. -/
theorem claim_C5_backoff :
    (∀ (now : Nat) (s : Session) (n : Nat) (o : AttemptOutcome) (rest : List AttemptOutcome),
        1 ≤ n →
        ((analyzeWithRetrySse now s n (o :: rest)).sleeps).head? =
          some (min (1000 * 2 ^ (n - 1)) 10000)) ∧
    (∀ (now : Nat) (s : Session) (fb : String) (rest : List AttemptOutcome),
        (analyzeWithRetrySse now s 0 (AttemptOutcome.ok fb :: rest)).sleeps = []) := by
  constructor
  · intro now s n o rest hn
    have h0 : 0 < n := hn
    cases o with
    | ok fb => simp [analyzeWithRetrySse, h0, retryDelay]
    | fail msg b =>
      simp only [analyzeWithRetrySse, retryDelay]
      split
      · simp [h0]
      · split
        · simp [h0]
        · simp [h0]
  · intro now s fb rest
    rfl

/-- Witness for C5 at retry attempt 2 and at a first attempt. -/
theorem claim_C5_witness :
    ((analyzeWithRetrySse 0 sampleSession 2 [AttemptOutcome.ok "f"]).sleeps).head? =
      some (min (1000 * 2 ^ (2 - 1)) 10000) :=
  claim_C5_backoff.1 0 sampleSession 2 (AttemptOutcome.ok "f") [] (by decide)

/-- C2 amended: exact behavior of both manual-retry handlers. -/
theorem claim_C2_retry_routes :
    (∀ (now : Nat) (s : Session), s.status ≠ "error" →
        sseRetryRoute now (some s) = ⟨.invalidState, some s, false⟩) ∧
    (∀ (now : Nat) (s : Session), s.status = "error" → 3 < s.retryCount + 1 →
        sseRetryRoute now (some s) = ⟨.maxRetriesExceeded, some s, false⟩) ∧
    (∀ (now : Nat) (s : Session), s.status = "error" → s.retryCount + 1 ≤ 3 →
        sseRetryRoute now (some s) =
          ⟨.accepted (s.retryCount + 1),
            some { s with status := "retrying", retryCount := s.retryCount + 1,
                          lastError := none, updatedAt := now }, false⟩) ∧
    (∀ (now : Nat) (s : Session),
        processRetryRoute now (some s) =
          ⟨.accepted (s.retryCount + 1),
            some { s with status := "retrying", retryCount := s.retryCount + 1,
                          lastError := none, updatedAt := now }, true⟩) := by
  refine ⟨?_, ?_, ?_, ?_⟩
  · intro now s h
    simp [sseRetryRoute, h]
  · intro now s h hcap
    simp [sseRetryRoute, h, hcap]
  · intro now s h hcap
    have hcap2 : ¬ 3 < s.retryCount + 1 := by omega
    simp [sseRetryRoute, h, hcap2]
  · intro now s
    rfl

/-- A completed session for the manual-retry counterexample. -/
def completedSession : Session := ⟨"S2", "completed", 0, 5, 1000, 0, none, some "fb"⟩

/-- C2 counterexample: the process-route manual retry on a `completed`
session is accepted and mutates the session (and restarts the workflow),
instead of being rejected without side effects. -/
theorem claim_C2_counterexample :
    (processRetryRoute 9 (some completedSession)).response = .accepted 1 ∧
    (processRetryRoute 9 (some completedSession)).session ≠ some completedSession ∧
    (processRetryRoute 9 (some completedSession)).restartsWorkflow = true := by
  refine ⟨rfl, ?_, rfl⟩
  decide

/-- Witness for C2: the events-route retry on a completed session is
rejected with INVALID_SESSION_STATE and no state change. -/
theorem claim_C2_witness :
    sseRetryRoute 5 (some completedSession) = ⟨.invalidState, some completedSession, false⟩ :=
  claim_C2_retry_routes.1 5 completedSession (by decide)

/-- Looking up a key just erased from the session map finds nothing. -/
theorem lookupSession_erase (store : List (String × Session)) (id : String) :
    lookupSession (eraseSession store id) id = none := by
  induction store with
  | nil => rfl
  | cons p t ih =>
    by_cases h : p.1 == id
    · simpa [eraseSession, lookupSession, h] using ih
    · simpa [eraseSession, lookupSession, h] using ih

/-- C6 amended: `getSession` treats an expired session as absent and
evicts it; `updateSession` treats it as absent (reports failure, changes
nothing) but does not evict. -/
theorem claim_C6_expired_sessions :
    ∀ (st : SessionStore) (id : String) (s : Session) (u : UpdateData),
      lookupSession st.sessions id = some s →
      isSessionExpired st.now s = true →
      (getSession st id).1 = none ∧
      lookupSession (getSession st id).2.sessions id = none ∧
      (updateSession st id u).1 = false ∧
      (updateSession st id u).2 = st := by
  intro st id s u hl he
  refine ⟨?_, ?_, ?_, ?_⟩
  · simp [getSession, hl, he]
  · simp [getSession, hl, he, lookupSession_erase]
  · simp [updateSession, hl, he]
  · simp [updateSession, hl, he]

/-- A store holding a single already-expired session, before any sweep. -/
def expiredSession : Session := ⟨"E1", "analyzing", 0, 0, 50, 0, none, none⟩

def expiredStore : SessionStore := ⟨[("a", expiredSession)], 100⟩

def emptyUpdate : UpdateData := ⟨none, none, none, none, none⟩

/-- C6 counterexample: `updateSession` on an expired session reports
failure but leaves the expired entry in the store — it does not lazily
evict, while `getSession` does. -/
theorem claim_C6_counterexample :
    (updateSession expiredStore "a" emptyUpdate).1 = false ∧
    lookupSession (updateSession expiredStore "a" emptyUpdate).2.sessions "a" =
      some expiredSession ∧
    lookupSession (getSession expiredStore "a").2.sessions "a" = none := by
  refine ⟨rfl, ?_, ?_⟩ <;> decide

/-- Witness for C6 on the concrete expired store. -/
theorem claim_C6_witness :
    (getSession expiredStore "a").1 = none ∧
    (updateSession expiredStore "a" emptyUpdate).2 = expiredStore :=
  ⟨(claim_C6_expired_sessions expiredStore "a" expiredSession emptyUpdate
      (by decide) (by decide)).1,
   (claim_C6_expired_sessions expiredStore "a" expiredSession emptyUpdate
      (by decide) (by decide)).2.2.2⟩

/-- C8: `parseResponse` cuts the trimmed response from the first opening
brace to the last closing brace and hands that window to `JSON.parse`
(the oracle `p`); when no such block exists, or parsing or validation
fails, it returns the fixed fallback feedback.  The function is total, so
no failure ever escapes to the caller. -/
theorem claim_C8_parseResponse :
    (∀ (p : String → Option Json) (r : String),
        firstIndexOf (jsTrim r.toList) '\x7b' = none ∨
          lastIndexOf (jsTrim r.toList) '\x7d' = none →
        parseResponse p r = getFallbackFeedback) ∧
    (∀ (p : String → Option Json) (r : String) (i j : Nat),
        firstIndexOf (jsTrim r.toList) '\x7b' = some i →
        lastIndexOf (jsTrim r.toList) '\x7d' = some j → i ≤ j →
        parseResponse p r =
          match p (String.mk (((jsTrim r.toList).take (j + 1)).drop i)) with
          | some parsed =>
            if validateFeedbackStructure parsed then parsed else getFallbackFeedback
          | none => getFallbackFeedback) := by
  constructor
  · intro p r h
    rcases h with h | h
    · have h2 : firstIndexOf (jsTrim r.data) '\x7b' = none := h
      simp [parseResponse, h2]
    · have h2 : lastIndexOf (jsTrim r.data) '\x7d' = none := h
      simp [parseResponse, h2]
  · intro p r i j hi hj hij
    have hi2 : firstIndexOf (jsTrim r.data) '\x7b' = some i := hi
    have hj2 : lastIndexOf (jsTrim r.data) '\x7d' = some j := hj
    have hmin : min i (j + 1) = i := by omega
    have hmax : max i (j + 1) = j + 1 := by omega
    simp [parseResponse, hi2, hj2, substringJs, hmin, hmax]

/-- Witness for C8: a brace-free response and an unparsable braced one
both fall back. -/
theorem claim_C8_witness :
    parseResponse (fun _ => none) "abc" = getFallbackFeedback ∧
    parseResponse (fun _ => none) "x\x7by\x7dz" = getFallbackFeedback := by
  constructor
  · exact claim_C8_parseResponse.1 (fun _ => none) "abc" (Or.inl (by decide))
  · have h := claim_C8_parseResponse.2 (fun _ => none) "x\x7by\x7dz" 1 3
      (by decide) (by decide) (by decide)
    simpa using h

/-- C1 amended, part 1: within one automatic run of the sse-route
`analyzeWithRetry` started at attempt `n ≤ 3` on a session whose stored
`retryCount` is at most 3, every session state written through
`updateSession` has `retryCount ≤ maxRetries + 1 = 4` (only the final
error update can reach 4).  Part 2: the events-route manual retry stores
a retry count of at most 3 whenever it accepts. -/
theorem claim_C1_retryCount_bound :
    (∀ (now : Nat) (s : Session) (n : Nat) (atts : List AttemptOutcome),
        s.retryCount ≤ 3 → n ≤ 3 →
        ∀ x ∈ (analyzeWithRetrySse now s n atts).stored, x.retryCount ≤ 4) ∧
    (∀ (now : Nat) (s : Session) (k : Nat) (s2 : Session),
        (sseRetryRoute now (some s)).response = .accepted k →
        (sseRetryRoute now (some s)).session = some s2 →
        k ≤ 3 ∧ s2.retryCount = k) := by
  constructor
  · intro now s n atts
    induction atts generalizing s n with
    | nil =>
      intro _ _ x hx
      simp [analyzeWithRetrySse] at hx
    | cons o rest ih =>
      intro hs hn x hx
      cases o with
      | ok fb =>
        by_cases h0 : 0 < n <;>
          simp only [analyzeWithRetrySse, if_pos, if_neg, h0, if_true, if_false] at hx <;>
          simp at hx <;>
          rcases hx with h | h <;> subst h <;> simp <;> omega
      | fail msg b =>
        by_cases h0 : 0 < n
        · simp only [analyzeWithRetrySse, h0, if_true] at hx
          by_cases hc1 : (containsSub msg "model not found" && b && decide (n < maxRetries)) = true
          · rw [if_pos hc1] at hx
            have hn3 : n < 3 := by
              by_contra hcon
              simp [maxRetries, hcon] at hc1
            simp at hx
            rcases hx with h | h
            · subst h; simp; omega
            · exact ih _ (n + 1) (by simp; omega) (by omega) x h
          · rw [if_neg hc1] at hx
            by_cases hc2 : (isRetryableError msg && decide (n < maxRetries)) = true
            · rw [if_pos hc2] at hx
              have hn3 : n < 3 := by
                by_contra hcon
                simp [maxRetries, hcon] at hc2
              simp at hx
              rcases hx with h | h
              · subst h; simp; omega
              · exact ih _ (n + 1) (by simp; omega) (by omega) x h
            · rw [if_neg hc2] at hx
              simp at hx
              rcases hx with h | h <;> subst h <;> simp <;> omega
        · simp only [analyzeWithRetrySse, h0, if_false] at hx
          by_cases hc1 : (containsSub msg "model not found" && b && decide (n < maxRetries)) = true
          · rw [if_pos hc1] at hx
            have hn3 : n < 3 := by
              by_contra hcon
              simp [maxRetries, hcon] at hc1
            simp at hx
            rcases hx with h | h
            · subst h; simp; omega
            · exact ih _ (n + 1) (by simpa using hs) (by omega) x h
          · rw [if_neg hc1] at hx
            by_cases hc2 : (isRetryableError msg && decide (n < maxRetries)) = true
            · rw [if_pos hc2] at hx
              have hn3 : n < 3 := by
                by_contra hcon
                simp [maxRetries, hcon] at hc2
              simp at hx
              rcases hx with h | h
              · subst h; simp; omega
              · exact ih _ (n + 1) (by simpa using hs) (by omega) x h
            · rw [if_neg hc2] at hx
              simp at hx
              rcases hx with h | h <;> subst h <;> simp <;> omega
  · intro now s k s2 hresp hsess
    by_cases h : s.status = "error"
    · by_cases hcap : 3 < s.retryCount + 1
      · simp [sseRetryRoute, h, hcap] at hresp
      · simp [sseRetryRoute, h, hcap] at hresp hsess
        subst hresp
        constructor
        · omega
        · simp [← hsess]
    · simp [sseRetryRoute, h] at hresp

/-- C1 counterexample: when four successive analysis attempts fail with a
retryable (rate-limited) error, the final error update stores
`retryCount = 4 > maxRetries = 3`. -/
theorem claim_C1_counterexample :
    ∃ x ∈ (analyzeWithRetrySse 7 sampleSession 0 fourRetryableFailures).stored,
      3 < x.retryCount := by
  decide

/-- Witness for C1 on the exhausted run (final state is a stored state). -/
theorem claim_C1_witness :
    (analyzeWithRetrySse 7 sampleSession 0 fourRetryableFailures).final.retryCount ≤ 4 :=
  claim_C1_retryCount_bound.1 7 sampleSession 0 fourRetryableFailures
    (by decide) (by decide)
    (analyzeWithRetrySse 7 sampleSession 0 fourRetryableFailures).final (by decide)

/-- C3 amended: `unauthorized` (401) and `not-found` (404) messages are
classified non-retryable while rate-limited (429) and server-error (5xx)
messages are retryable; a first-attempt unauthorized failure errors at
once with no backoff, `retryable:false`, and a stored/reported attempt
count of 1 (not 0); and a not-found failure followed by a successful
model reinitialization is retried instead of erroring immediately. -/
theorem claim_C3_error_classification :
    (isRetryableError notFoundMsg = false) ∧
    (isRetryableError unauthorizedMsg = false) ∧
    (isRetryableError rateLimitedMsg = true) ∧
    (∀ (n : Nat) (r : String), 500 ≤ n →
        geminiErrorMessage (some n) r =
          "AI service temporarily unavailable. Please try again later." ∧
        isRetryableError (geminiErrorMessage (some n) r) = true) ∧
    (∀ (now : Nat) (s : Session) (b : Bool) (rest : List AttemptOutcome),
        (analyzeWithRetrySse now s 0 (.fail unauthorizedMsg b :: rest)).sleeps = [] ∧
        (analyzeWithRetrySse now s 0 (.fail unauthorizedMsg b :: rest)).errors =
          [⟨"AI_ANALYSIS_FAILED", "analysis", false, 1⟩] ∧
        (analyzeWithRetrySse now s 0 (.fail unauthorizedMsg b :: rest)).final.status =
          "error" ∧
        (analyzeWithRetrySse now s 0 (.fail unauthorizedMsg b :: rest)).final.retryCount = 1) ∧
    (∀ (now : Nat) (s : Session) (fb : String),
        (analyzeWithRetrySse now s 0 [.fail notFoundMsg true, .ok fb]).final.status =
          "completed") := by
  refine ⟨by decide, by decide, by decide, ?_, ?_, ?_⟩
  · intro n r hn
    have h404 : n ≠ 404 := by omega
    have h401 : n ≠ 401 := by omega
    have h429 : n ≠ 429 := by omega
    have hmsg : geminiErrorMessage (some n) r =
        "AI service temporarily unavailable. Please try again later." := by
      simp [geminiErrorMessage, h404, h401, h429, hn]
    refine ⟨hmsg, ?_⟩
    rw [hmsg]
    decide
  · intro now s b rest
    have hnf : containsSub unauthorizedMsg "model not found" = false := by decide
    have hr : isRetryableError unauthorizedMsg = false := by decide
    refine ⟨?_, ?_, ?_, ?_⟩ <;>
      simp [analyzeWithRetrySse, hnf, hr]
  · intro now s fb
    have hnf : containsSub notFoundMsg "model not found" = true := by decide
    simp [analyzeWithRetrySse, hnf, maxRetries]

/-- C3 counterexample: on a first-attempt unauthorized failure the stored
and reported attempt count is 1, not 0 as the claim requires. -/
theorem claim_C3_counterexample :
    (analyzeWithRetrySse 7 sampleSession 0 [.fail unauthorizedMsg false]).final.status =
      "error" ∧
    (analyzeWithRetrySse 7 sampleSession 0 [.fail unauthorizedMsg false]).sleeps = [] ∧
    (analyzeWithRetrySse 7 sampleSession 0 [.fail unauthorizedMsg false]).errors =
      [⟨"AI_ANALYSIS_FAILED", "analysis", false, 1⟩] ∧
    (analyzeWithRetrySse 7 sampleSession 0 [.fail unauthorizedMsg false]).final.retryCount ≠ 0 := by
  refine ⟨by decide, by decide, by decide, by decide⟩

/-- Witness for C3 at a concrete server-error status. -/
theorem claim_C3_witness :
    isRetryableError (geminiErrorMessage (some 503) "boom") = true :=
  ((claim_C3_error_classification.2.2.2.1 503 "boom" (by decide)).2)

/-- C4 amended: when all four automatic attempts fail with one retryable
error, the sse-route loop sets the session to `error` with attempt count
`maxRetries + 1 = 4`, but its reported payload carries
`retryable = true` (the classification of the last error); the process-route
loop hardcodes `retryable = false` in the same situation. -/
theorem claim_C4_exhaustion_payload :
    ∀ (now : Nat) (s : Session) (m : String) (b : Bool),
      isRetryableError m = true →
      (analyzeWithRetrySse now s 0 (List.replicate 4 (.fail m b))).final.status = "error" ∧
      (analyzeWithRetrySse now s 0 (List.replicate 4 (.fail m b))).final.retryCount = 4 ∧
      (analyzeWithRetrySse now s 0 (List.replicate 4 (.fail m b))).errors =
        [⟨"AI_ANALYSIS_FAILED", "analysis", true, 4⟩] ∧
      (analyzeWithRetryProc 0 (List.replicate 4 (.fail m b))).errors =
        [⟨"AI_ANALYSIS_FAILED", "analysis", false, 4⟩] := by
  intro now s m b h
  have hnf : containsSub m "model not found" = false := by
    cases hcs : containsSub m "model not found"
    · rfl
    · rw [isRetryableError, hcs] at h
      simp at h
  refine ⟨?_, ?_, ?_, ?_⟩ <;>
    simp [analyzeWithRetrySse, analyzeWithRetryProc, List.replicate, hnf, h, maxRetries]

/-- C4 counterexample: at exhaustion with retryable errors the sse-route
payload says `retryable = true`, not `false`. -/
theorem claim_C4_counterexample :
    (analyzeWithRetrySse 7 sampleSession 0 fourRetryableFailures).final.status = "error" ∧
    (analyzeWithRetrySse 7 sampleSession 0 fourRetryableFailures).errors =
      [⟨"AI_ANALYSIS_FAILED", "analysis", true, 4⟩] ∧
    (analyzeWithRetrySse 7 sampleSession 0 fourRetryableFailures).errors.map
        (fun e => e.retryable) ≠ [false] := by
  refine ⟨by decide, by decide, by decide⟩

/-- Witness for C4 at the rate-limited message. -/
theorem claim_C4_witness :
    (analyzeWithRetrySse 7 sampleSession 0 (List.replicate 4 (.fail rateLimitedMsg false))).errors =
      [⟨"AI_ANALYSIS_FAILED", "analysis", true, 4⟩] :=
  (claim_C4_exhaustion_payload 7 sampleSession rateLimitedMsg false (by decide)).2.2.1

/-- A reference that `heapGet` resolves is below the allocation bound. -/
theorem heapGet_lt_next (h : ObjHeap) (r : Nat) (s : Session)
    (hwf : HeapWF h) (hg : heapGet h r = some s) : r < h.next := by
  unfold heapGet at hg
  cases hfind : h.objs.find? (fun p => p.1 == r) with
  | none => rw [hfind] at hg; cases hg
  | some p =>
    rw [hfind] at hg
    have hm := List.mem_of_find?_eq_some hfind
    have hp : p.1 = r := by simpa using List.find?_some hfind
    have := hwf p hm
    omega

/-- Allocation stores the new object at the fresh reference. -/
theorem heapGet_alloc_self (h : ObjHeap) (s : Session) (hwf : HeapWF h) :
    heapGet (heapAlloc h s).2 h.next = some s := by
  unfold heapGet heapAlloc
  rw [List.find?_append]
  have hnone : h.objs.find? (fun p => p.1 == h.next) = none := by
    apply List.find?_eq_none.mpr
    intro p hp
    have := hwf p hp
    simp
    omega
  rw [hnone]
  simp


/-- Allocation does not disturb existing objects. -/
theorem heapGet_alloc_preserve (h : ObjHeap) (s : Session) (r : Nat) (s0 : Session)
    (hg : heapGet h r = some s0) : heapGet (heapAlloc h s).2 r = some s0 := by
  have hobjs : (heapAlloc h s).2.objs = h.objs ++ [(h.next, s)] := rfl
  unfold heapGet at hg ⊢
  rw [hobjs, List.find?_append]
  cases hfind : h.objs.find? (fun p => p.1 == r) with
  | none =>
    rw [hfind] at hg
    simp at hg
  | some p =>
    rw [hfind] at hg
    simpa using hg

/-- Overwriting one object leaves lookups of a different reference
unchanged (list form). -/
theorem find_map_write (l : List (Nat × Session)) (r r0 : Nat) (v : Session)
    (hne : r0 ≠ r) :
    (l.map (fun p => if p.1 == r then (r, v) else p)).find? (fun p => p.1 == r0) =
      l.find? (fun p => p.1 == r0) := by
  induction l with
  | nil => rfl
  | cons p t ih =>
    by_cases hpr : p.1 = r
    · have hmap : List.map (fun q => if q.1 == r then (r, v) else q) (p :: t) =
          (r, v) :: List.map (fun q => if q.1 == r then (r, v) else q) t := by
        simp [hpr]
      rw [hmap, List.find?_cons, List.find?_cons]
      have hr0 : (((r, v) : Nat × Session).1 == r0) = false := by
        simp
        omega
      have hp0 : (p.1 == r0) = false := by
        simp [hpr]
        omega
      rw [hr0, hp0]
      exact ih
    · have hmap : List.map (fun q => if q.1 == r then (r, v) else q) (p :: t) =
          p :: List.map (fun q => if q.1 == r then (r, v) else q) t := by
        simp [hpr]
      rw [hmap, List.find?_cons, List.find?_cons]
      cases hp0 : (p.1 == r0) with
      | false => exact ih
      | true => rfl

/-- Overwriting one object leaves a different object unchanged. -/
theorem heapGet_write_other (h : ObjHeap) (r r0 : Nat) (v : Session)
    (hne : r0 ≠ r) : heapGet (heapWrite h r v) r0 = heapGet h r0 := by
  unfold heapGet heapWrite
  rw [find_map_write h.objs r r0 v hne]

/-- C9: on an unexpired stored session, `getSession` returns a freshly
allocated copy: a reference distinct from the stored one, with equal
top-level fields; mutating the copy leaves the stored object and the
session table untouched. -/
theorem claim_C9_getSession_returns_copy :
    ∀ (st : RefStore) (id : String) (r0 : Nat) (s v : Session),
      HeapWF st.heap →
      lookupRef st.table id = some r0 →
      heapGet st.heap r0 = some s →
      isSessionExpired st.now s = false →
      (getSessionRef st id).1 = some st.heap.next ∧
      st.heap.next ≠ r0 ∧
      heapGet (getSessionRef st id).2.heap st.heap.next = some s ∧
      (getSessionRef st id).2.table = st.table ∧
      heapGet (getSessionRef st id).2.heap r0 = some s ∧
      heapGet (heapWrite (getSessionRef st id).2.heap st.heap.next v) r0 = some s := by
  intro st id r0 s v hwf hl hg he
  have hlt : r0 < st.heap.next := heapGet_lt_next st.heap r0 s hwf hg
  have hne : st.heap.next ≠ r0 := by omega
  have hout : getSessionRef st id =
      (some (heapAlloc st.heap s).1, { st with heap := (heapAlloc st.heap s).2 }) := by
    simp [getSessionRef, hl, hg, he]
  refine ⟨?_, hne, ?_, ?_, ?_, ?_⟩
  · rw [hout]
    rfl
  · rw [hout]
    exact heapGet_alloc_self st.heap s hwf
  · rw [hout]
  · rw [hout]
    exact heapGet_alloc_preserve st.heap s r0 s hg
  · rw [hout]
    have hw := heapGet_write_other (heapAlloc st.heap s).2 st.heap.next r0 v (by omega)
    calc heapGet (heapWrite (heapAlloc st.heap s).2 st.heap.next v) r0
        = heapGet (heapAlloc st.heap s).2 r0 := hw
      _ = some s := heapGet_alloc_preserve st.heap s r0 s hg

/-- A one-session reference store for the C9 witness. -/
def liveSession : Session := ⟨"L1", "analyzing", 0, 0, 100, 0, none, none⟩

def liveRefStore : RefStore := ⟨⟨[(0, liveSession)], 1⟩, [("a", 0)], 10⟩

/-- A mutation the caller might perform on the returned copy. -/
def mutatedSession : Session := ⟨"L1", "hacked", 0, 0, 100, 9, none, none⟩

/-- Witness for C9: mutating the returned copy leaves the stored object
unchanged in the concrete store. -/
theorem claim_C9_witness :
    heapGet (heapWrite (getSessionRef liveRefStore "a").2.heap
        liveRefStore.heap.next mutatedSession) 0 = some liveSession :=
  (claim_C9_getSession_returns_copy liveRefStore "a" 0 liveSession mutatedSession
    (by decide) (by decide) (by decide) (by decide)).2.2.2.2.2

/-! ### Lookup lemmas for the connection registry -/

theorem find_map_setKey_self (m : Connections) (sid : String) (l : List SSEConn) :
    (m.map (fun p => if p.1 == sid then (sid, l) else p)).find? (fun p => p.1 == sid) =
      (m.find? (fun p => p.1 == sid)).map (fun _ => (sid, l)) := by
  induction m with
  | nil => rfl
  | cons p t ih =>
    by_cases hp : p.1 = sid
    · have hmap : List.map (fun q => if q.1 == sid then (sid, l) else q) (p :: t) =
          (sid, l) :: List.map (fun q => if q.1 == sid then (sid, l) else q) t := by
        simp [hp]
      rw [hmap, List.find?_cons, List.find?_cons]
      have h1 : (((sid, l) : String × List SSEConn).1 == sid) = true := by simp
      have h2 : (p.1 == sid) = true := by simp [hp]
      rw [h1, h2]
      rfl
    · have hmap : List.map (fun q => if q.1 == sid then (sid, l) else q) (p :: t) =
          p :: List.map (fun q => if q.1 == sid then (sid, l) else q) t := by
        simp [hp]
      rw [hmap, List.find?_cons, List.find?_cons]
      have h2 : (p.1 == sid) = false := by simp [hp]
      rw [h2]
      exact ih

theorem find_map_setKey_other (m : Connections) (sid sid2 : String) (l : List SSEConn)
    (hne : sid2 ≠ sid) :
    (m.map (fun p => if p.1 == sid then (sid, l) else p)).find? (fun p => p.1 == sid2) =
      m.find? (fun p => p.1 == sid2) := by
  induction m with
  | nil => rfl
  | cons p t ih =>
    by_cases hp : p.1 = sid
    · have hmap : List.map (fun q => if q.1 == sid then (sid, l) else q) (p :: t) =
          (sid, l) :: List.map (fun q => if q.1 == sid then (sid, l) else q) t := by
        simp [hp]
      rw [hmap, List.find?_cons, List.find?_cons]
      have h1 : (((sid, l) : String × List SSEConn).1 == sid2) = false := by
        simp
        exact fun h => absurd h.symm hne
      have h2 : (p.1 == sid2) = false := by
        simp [hp]
        exact fun h => absurd h.symm hne
      rw [h1, h2]
      exact ih
    · have hmap : List.map (fun q => if q.1 == sid then (sid, l) else q) (p :: t) =
          p :: List.map (fun q => if q.1 == sid then (sid, l) else q) t := by
        simp [hp]
      rw [hmap, List.find?_cons, List.find?_cons]
      cases h2 : (p.1 == sid2) with
      | false => exact ih
      | true => rfl

theorem lookupConns_setKey_self (m : Connections) (sid : String) (l : List SSEConn) :
    lookupConns (setKey m sid l) sid = some l := by
  unfold lookupConns setKey
  by_cases hpres : (m.find? (fun p => p.1 == sid)).isSome
  · rw [if_pos hpres, find_map_setKey_self]
    cases hf : m.find? (fun p => p.1 == sid) with
    | none => rw [hf] at hpres; simp at hpres
    | some p => rfl
  · rw [if_neg hpres, List.find?_append]
    cases hf : m.find? (fun p => p.1 == sid) with
    | some p => rw [hf] at hpres; simp at hpres
    | none => simp

theorem lookupConns_setKey_other (m : Connections) (sid sid2 : String) (l : List SSEConn)
    (hne : sid2 ≠ sid) :
    lookupConns (setKey m sid l) sid2 = lookupConns m sid2 := by
  unfold lookupConns setKey
  by_cases hpres : (m.find? (fun p => p.1 == sid)).isSome
  · rw [if_pos hpres, find_map_setKey_other m sid sid2 l hne]
  · rw [if_neg hpres, List.find?_append]
    have h1 : (((sid, l) : String × List SSEConn).1 == sid2) = false := by
      simp
      exact fun h => absurd h.symm hne
    simp [h1]

theorem lookupConns_deleteKey_self (m : Connections) (sid : String) :
    lookupConns (deleteKey m sid) sid = none := by
  unfold lookupConns deleteKey
  have : (m.filter (fun p => p.1 != sid)).find? (fun p => p.1 == sid) = none := by
    apply List.find?_eq_none.mpr
    intro p hp
    have := List.of_mem_filter hp
    simp at this ⊢
    exact this
  rw [this]

theorem lookupConns_deleteKey_other (m : Connections) (sid sid2 : String)
    (hne : sid2 ≠ sid) :
    lookupConns (deleteKey m sid) sid2 = lookupConns m sid2 := by
  unfold lookupConns deleteKey
  induction m with
  | nil => rfl
  | cons p t ih =>
    by_cases hp : p.1 = sid
    · have hfil : List.filter (fun q => q.1 != sid) (p :: t) =
          List.filter (fun q => q.1 != sid) t := by
        have hb : (p.1 != sid) = false := by simp [hp]
        simp [List.filter_cons, hb]
      rw [hfil, List.find?_cons]
      have h2 : (p.1 == sid2) = false := by
        simp [hp]
        exact fun h => absurd h.symm hne
      rw [h2]
      exact ih
    · have hfil : List.filter (fun q => q.1 != sid) (p :: t) =
          p :: List.filter (fun q => q.1 != sid) t := by
        have hb : (p.1 != sid) = true := by simp [hp]
        simp [List.filter_cons, hb]
      rw [hfil, List.find?_cons, List.find?_cons]
      cases h2 : (p.1 == sid2) with
      | false => exact ih
      | true => rfl

theorem removeConnection_eq (m : Connections) (sid : String) (c : SSEConn)
    (l : List SSEConn) (hl : lookupConns m sid = some l) :
    removeConnection m sid c =
      if (l.filter (fun x => x.rid != c.rid)).isEmpty then deleteKey m sid
      else setKey m sid (l.filter (fun x => x.rid != c.rid)) := by
  unfold removeConnection
  rw [hl]

theorem removeConnection_eq_none (m : Connections) (sid : String) (c : SSEConn)
    (hl : lookupConns m sid = none) :
    removeConnection m sid c = m := by
  unfold removeConnection
  rw [hl]

theorem lookupConns_remove_self (m : Connections) (sid : String) (c : SSEConn) :
    lookupConns (removeConnection m sid c) sid =
      match lookupConns m sid with
      | none => none
      | some l =>
        if (l.filter (fun x => x.rid != c.rid)).isEmpty then none
        else some (l.filter (fun x => x.rid != c.rid)) := by
  cases hl : lookupConns m sid with
  | none => rw [removeConnection_eq_none m sid c hl, hl]
  | some l =>
    rw [removeConnection_eq m sid c l hl]
    show lookupConns
        (if (l.filter (fun x => x.rid != c.rid)).isEmpty then deleteKey m sid
          else setKey m sid (l.filter (fun x => x.rid != c.rid))) sid =
      if (l.filter (fun x => x.rid != c.rid)).isEmpty then none
      else some (l.filter (fun x => x.rid != c.rid))
    by_cases he : (l.filter (fun x => x.rid != c.rid)).isEmpty
    · rw [if_pos he, if_pos he, lookupConns_deleteKey_self]
    · rw [if_neg he, if_neg he, lookupConns_setKey_self]

theorem lookupConns_remove_other (m : Connections) (sid sid2 : String) (c : SSEConn)
    (hne : sid2 ≠ sid) :
    lookupConns (removeConnection m sid c) sid2 = lookupConns m sid2 := by
  cases hl : lookupConns m sid with
  | none => rw [removeConnection_eq_none m sid c hl]
  | some l =>
    rw [removeConnection_eq m sid c l hl]
    by_cases he : (l.filter (fun x => x.rid != c.rid)).isEmpty
    · rw [if_pos he, lookupConns_deleteKey_other m sid sid2 hne]
    · rw [if_neg he, lookupConns_setKey_other m sid sid2 _ hne]

/-- Folding `removeConnection` over a list of streams prunes exactly
those rids from the session bucket (deleting the key if it empties). -/
theorem lookupConns_foldRemove_self (ds : List SSEConn) (m : Connections) (sid : String)
    (hne : ∀ l, lookupConns m sid = some l → l ≠ []) :
    lookupConns (ds.foldl (fun acc c => removeConnection acc sid c) m) sid =
      match lookupConns m sid with
      | none => none
      | some l =>
        if (l.filter (fun x => ds.all (fun c => x.rid != c.rid))).isEmpty then none
        else some (l.filter (fun x => ds.all (fun c => x.rid != c.rid))) := by
  induction ds generalizing m with
  | nil =>
    simp only [List.foldl]
    cases hl : lookupConns m sid with
    | none => rfl
    | some l =>
      have hlne := hne l hl
      have h1 : (l.filter fun x => List.all ([] : List SSEConn) fun c => x.rid != c.rid) = l := by
        simp
      show some l =
        if (l.filter fun x =>
            List.all ([] : List SSEConn) fun c => x.rid != c.rid).isEmpty then none
        else some (l.filter fun x => List.all ([] : List SSEConn) fun c => x.rid != c.rid)
      rw [h1]
      have h2 : l.isEmpty = false := by
        cases l
        · exact absurd rfl hlne
        · rfl
      rw [h2]
      simp
  | cons c0 ds ih =>
    simp only [List.foldl]
    have hcomp : ∀ l : List SSEConn,
        (l.filter fun x => List.all (c0 :: ds) fun c => x.rid != c.rid) =
          ((l.filter (fun x => x.rid != c0.rid)).filter
            (fun x => ds.all fun c => x.rid != c.rid)) := by
      intro l
      rw [List.filter_filter]
      apply List.filter_congr
      intro x hx
      simp [List.all_cons, Bool.and_comm]
    have hne1 : ∀ l, lookupConns (removeConnection m sid c0) sid = some l → l ≠ [] := by
      intro l hl
      cases hl0 : lookupConns m sid with
      | none =>
        rw [removeConnection_eq_none m sid c0 hl0, hl0] at hl
        cases hl
      | some l0 =>
        rw [removeConnection_eq m sid c0 l0 hl0] at hl
        by_cases hep : (l0.filter (fun x => x.rid != c0.rid)).isEmpty
        · rw [if_pos hep, lookupConns_deleteKey_self] at hl
          cases hl
        · rw [if_neg hep, lookupConns_setKey_self] at hl
          have hle : l = l0.filter (fun x => x.rid != c0.rid) := (Option.some.inj hl).symm
          subst hle
          intro hnil
          rw [hnil] at hep
          exact hep rfl
    rw [ih (removeConnection m sid c0) hne1, lookupConns_remove_self]
    cases hl0 : lookupConns m sid with
    | none => rfl
    | some l0 =>
      show (match
          (if (l0.filter (fun x => x.rid != c0.rid)).isEmpty then none
            else some (l0.filter (fun x => x.rid != c0.rid))) with
        | none => none
        | some l =>
          if (l.filter (fun x => ds.all (fun c => x.rid != c.rid))).isEmpty then none
          else some (l.filter (fun x => ds.all (fun c => x.rid != c.rid)))) =
        if (l0.filter (fun x => (c0 :: ds).all (fun c => x.rid != c.rid))).isEmpty then none
        else some (l0.filter (fun x => (c0 :: ds).all (fun c => x.rid != c.rid)))
      rw [hcomp l0]
      by_cases hep : (l0.filter (fun x => x.rid != c0.rid)).isEmpty
      · rw [if_pos hep]
        have : l0.filter (fun x => x.rid != c0.rid) = [] := by
          cases hfe : l0.filter (fun x => x.rid != c0.rid)
          · rfl
          · rw [hfe] at hep
            simp at hep
        rw [this]
        simp
      · rw [if_neg hep]

/-- Folding `removeConnection` for one session leaves every other
session bucket unchanged. -/
theorem lookupConns_foldRemove_other (ds : List SSEConn) (m : Connections)
    (sid sid2 : String) (hne : sid2 ≠ sid) :
    lookupConns (ds.foldl (fun acc c => removeConnection acc sid c) m) sid2 =
      lookupConns m sid2 := by
  induction ds generalizing m with
  | nil => rfl
  | cons c0 ds ih =>
    simp only [List.foldl]
    rw [ih (removeConnection m sid c0), lookupConns_remove_other m sid sid2 c0 hne]

/-- The fan-out loop delivers exactly to the streams that are neither
destroyed, finished, nor write-failing, and collects exactly the
destroyed/finished streams as dead. -/
theorem broadcastScan_spec (l : List SSEConn) :
    broadcastScan l =
      ((l.filter (fun c => !c.destroyed && !c.finished && !c.writeRaises)).map
          (fun c => c.rid),
        l.filter (fun c => c.destroyed || c.finished)) := by
  induction l with
  | nil => rfl
  | cons c t ih =>
    simp only [broadcastScan, ih]
    by_cases h1 : c.destroyed
    · simp [h1, sendEvent]
    · by_cases h2 : c.finished
      · simp [h1, h2, sendEvent]
      · by_cases h3 : c.writeRaises
        · simp [h1, h2, h3, sendEvent]
        · simp [h1, h2, h3, sendEvent]

instance (m : Connections) : Decidable (NoEmptyBuckets m) :=
  inferInstanceAs (Decidable (∀ p ∈ m, p.2 ≠ []))

theorem noEmpty_deleteKey (m : Connections) (sid : String)
    (h : NoEmptyBuckets m) : NoEmptyBuckets (deleteKey m sid) := by
  intro p hp
  exact h p (List.mem_of_mem_filter hp)

theorem noEmpty_setKey (m : Connections) (sid : String) (l : List SSEConn)
    (hl : l ≠ []) (h : NoEmptyBuckets m) : NoEmptyBuckets (setKey m sid l) := by
  intro p hp
  unfold setKey at hp
  by_cases hpres : (m.find? (fun p => p.1 == sid)).isSome
  · rw [if_pos hpres] at hp
    obtain ⟨q, hq, hqe⟩ := List.mem_map.mp hp
    by_cases hqs : q.1 = sid
    · rw [if_pos (by simp [hqs])] at hqe
      rw [← hqe]
      exact hl
    · rw [if_neg (by simp [hqs])] at hqe
      rw [← hqe]
      exact h q hq
  · rw [if_neg hpres] at hp
    rcases List.mem_append.mp hp with h1 | h1
    · exact h p h1
    · have : p = (sid, l) := by simpa using h1
      rw [this]
      exact hl

theorem noEmpty_remove (m : Connections) (sid : String) (c : SSEConn)
    (h : NoEmptyBuckets m) : NoEmptyBuckets (removeConnection m sid c) := by
  cases hl : lookupConns m sid with
  | none => rw [removeConnection_eq_none m sid c hl]; exact h
  | some l =>
    rw [removeConnection_eq m sid c l hl]
    by_cases hep : (l.filter (fun x => x.rid != c.rid)).isEmpty
    · rw [if_pos hep]
      exact noEmpty_deleteKey m sid h
    · rw [if_neg hep]
      apply noEmpty_setKey m sid _ _ h
      intro hnil
      rw [hnil] at hep
      exact hep rfl

theorem noEmpty_foldRemove (ds : List SSEConn) (m : Connections) (sid : String)
    (h : NoEmptyBuckets m) :
    NoEmptyBuckets (ds.foldl (fun acc c => removeConnection acc sid c) m) := by
  induction ds generalizing m with
  | nil => exact h
  | cons c0 ds ih =>
    simp only [List.foldl]
    exact ih (removeConnection m sid c0) (noEmpty_remove m sid c0 h)

theorem noEmpty_createConnection (m : Connections) (sid : String) (res : Option SSEConn)
    (h : NoEmptyBuckets m) : NoEmptyBuckets (createConnection m sid res).2 := by
  unfold createConnection
  split
  · exact h
  · rename_i c
    dsimp only
    split
    · exact h
    · apply noEmpty_setKey m sid _ _ h
      split
      · rename_i hany
        intro hnil
        rw [hnil] at hany
        cases hany
      · simp

theorem noEmpty_broadcast (m : Connections) (sid et : String)
    (h : NoEmptyBuckets m) : NoEmptyBuckets (broadcastToSession m sid et).1 := by
  unfold broadcastToSession
  split
  · exact h
  · split
    · exact h
    · rename_i l _
      dsimp only
      split
      · exact h
      · exact noEmpty_foldRemove (broadcastScan l).2 m sid h

theorem noEmpty_heartbeatKey (m : Connections) (sid : String) (l : List SSEConn)
    (h : NoEmptyBuckets m) : NoEmptyBuckets (heartbeatKey m sid l) :=
  noEmpty_foldRemove _ m sid h

theorem noEmpty_sendHeartbeat (m : Connections) (h : NoEmptyBuckets m) :
    NoEmptyBuckets (sendHeartbeat m) := by
  unfold sendHeartbeat
  have hgen : ∀ (entries : List (String × List SSEConn)) (acc : Connections),
      NoEmptyBuckets acc →
      NoEmptyBuckets (entries.foldl (fun acc p => heartbeatKey acc p.1 p.2) acc) := by
    intro entries
    induction entries with
    | nil => intro acc hacc; exact hacc
    | cons p t ih =>
      intro acc hacc
      simp only [List.foldl]
      exact ih _ (noEmpty_heartbeatKey acc p.1 p.2 hacc)
  exact hgen m m h

theorem noEmpty_cleanup (m : Connections) :
    NoEmptyBuckets (cleanupDeadConnections m) := by
  intro p hp
  unfold cleanupDeadConnections at hp
  have := List.of_mem_filter hp
  intro hnil
  rw [hnil] at this
  simp at this

theorem noEmpty_close (m : Connections) (sid : String) (h : NoEmptyBuckets m) :
    NoEmptyBuckets (closeSessionConnections m sid) := by
  unfold closeSessionConnections
  split
  · exact h
  · exact noEmpty_deleteKey m sid h

/-- Under the invariant, a session id is a key exactly when it has at
least one attached connection. -/
theorem key_iff_positive_count (m : Connections) (h : NoEmptyBuckets m) (sid : String) :
    (lookupConns m sid).isSome ↔ 0 < getConnectionCount m sid := by
  unfold getConnectionCount
  cases hl : lookupConns m sid with
  | none => simp
  | some l =>
    simp only [Option.isSome_some, Option.getD_some, true_iff]
    have hlne : l ≠ [] := by
      unfold lookupConns at hl
      cases hf : m.find? (fun p => p.1 == sid) with
      | none => rw [hf] at hl; cases hl
      | some p =>
        rw [hf] at hl
        have hm := List.mem_of_find?_eq_some hf
        have := h p hm
        have hpl : p.2 = l := by simpa using hl
        rw [← hpl]
        exact this
    exact List.length_pos.mpr hlne

/-- C10: every SSEManager operation preserves the invariant that no
session id maps to an empty connection set, and under that invariant a
session id is a key of the map iff `getConnectionCount` is positive. -/
theorem claim_C10_no_empty_buckets :
    ∀ (m : Connections) (sid et : String) (res : Option SSEConn) (c : SSEConn),
      NoEmptyBuckets m →
      NoEmptyBuckets (createConnection m sid res).2 ∧
      NoEmptyBuckets (removeConnection m sid c) ∧
      NoEmptyBuckets (broadcastToSession m sid et).1 ∧
      NoEmptyBuckets (sendHeartbeat m) ∧
      NoEmptyBuckets (cleanupDeadConnections m) ∧
      NoEmptyBuckets (closeSessionConnections m sid) ∧
      (∀ sid2, (lookupConns m sid2).isSome ↔ 0 < getConnectionCount m sid2) := by
  intro m sid et res c h
  exact ⟨noEmpty_createConnection m sid res h, noEmpty_remove m sid c h,
    noEmpty_broadcast m sid et h, noEmpty_sendHeartbeat m h,
    noEmpty_cleanup m, noEmpty_close m sid h,
    fun sid2 => key_iff_positive_count m h sid2⟩

/-- A concrete two-stream registry for the C10 witness: one live stream
and one destroyed stream under session `"s"`. -/
def liveConn : SSEConn := ⟨2, false, false, false⟩

def deadConn : SSEConn := ⟨3, true, false, false⟩

def sampleConnections : Connections := [("s", [liveConn, deadConn])]

/-- Witness for C10 on the concrete registry. -/
theorem claim_C10_witness :
    NoEmptyBuckets (sendHeartbeat sampleConnections) ∧
    ((lookupConns sampleConnections "s").isSome ↔
      0 < getConnectionCount sampleConnections "s") :=
  ⟨(claim_C10_no_empty_buckets sampleConnections "s" "ev" (some liveConn) deadConn
      (by decide)).2.2.2.1,
   (claim_C10_no_empty_buckets sampleConnections "s" "ev" (some liveConn) deadConn
      (by decide)).2.2.2.2.2.2 "s"⟩

/-- C7 amended: fan-out delivers to exactly the attached streams that are
neither destroyed, finished, nor write-failing; exactly the streams found
destroyed/finished are pruned from the session bucket (a write failure
is swallowed inside `sendEvent` and does not remove the stream in that
pass); no failure aborts the iteration, and the buckets of all other
sessions stay untouched. -/
theorem claim_C7_fanout_isolation :
    ∀ (m : Connections) (sid et : String) (l : List SSEConn),
      sid ≠ "" → et ≠ "" →
      lookupConns m sid = some l → l ≠ [] →
      (l.map (fun c => c.rid)).Nodup →
      ((broadcastToSession m sid et).2 =
        (l.filter (fun c => !c.destroyed && !c.finished && !c.writeRaises)).map
          (fun c => c.rid)) ∧
      (lookupConns (broadcastToSession m sid et).1 sid =
        if (l.filter (fun c => !(c.destroyed || c.finished))).isEmpty then none
        else some (l.filter (fun c => !(c.destroyed || c.finished)))) ∧
      (∀ sid2, sid2 ≠ sid →
        lookupConns (broadcastToSession m sid et).1 sid2 = lookupConns m sid2) := by
  intro m sid et l hsid het hl hlne hnd
  have hg : (sid == "" || et == "") = false := by simp [hsid, het]
  have hepl : l.isEmpty = false := by
    cases l
    · exact absurd rfl hlne
    · rfl
  have hout : broadcastToSession m sid et =
      ((broadcastScan l).2.foldl (fun acc c => removeConnection acc sid c) m,
        (broadcastScan l).1) := by
    simp only [broadcastToSession, hg, Bool.false_eq_true, if_false, hl, hepl]
  have hpred : l.filter (fun x => (broadcastScan l).2.all (fun c => x.rid != c.rid)) =
      l.filter (fun c => !(c.destroyed || c.finished)) := by
    rw [broadcastScan_spec]
    apply List.filter_congr
    intro x hx
    by_cases hdead : (x.destroyed || x.finished) = true
    · rw [hdead]
      have hmem : x ∈ l.filter (fun c => c.destroyed || c.finished) :=
        List.mem_filter.mpr ⟨hx, hdead⟩
      cases hall : (l.filter (fun c => c.destroyed || c.finished)).all
          (fun c => x.rid != c.rid) with
      | false => rfl
      | true =>
        have hx2 := List.all_eq_true.mp hall x hmem
        simp at hx2
    · have hdead2 : (x.destroyed || x.finished) = false := by
        cases hv : (x.destroyed || x.finished)
        · rfl
        · exact absurd hv hdead
      rw [hdead2]
      apply List.all_eq_true.mpr
      intro c hc
      obtain ⟨hcl, hcflag⟩ := List.mem_filter.mp hc
      have hxc : x ≠ c := by
        intro he
        rw [he, hcflag] at hdead2
        cases hdead2
      have hrid : ¬ x.rid = c.rid := by
        intro hr
        exact hxc (List.inj_on_of_nodup_map hnd hx hcl hr)
      simp [hrid]
  refine ⟨?_, ?_, ?_⟩
  · rw [hout, broadcastScan_spec]
  · rw [hout]
    have hne2 : ∀ l2, lookupConns m sid = some l2 → l2 ≠ [] := by
      intro l2 hl2
      rw [hl] at hl2
      have : l2 = l := (Option.some.inj hl2).symm
      rw [this]
      exact hlne
    show lookupConns
        ((broadcastScan l).2.foldl (fun acc c => removeConnection acc sid c) m) sid = _
    rw [lookupConns_foldRemove_self (broadcastScan l).2 m sid hne2, hl]
    show (if (l.filter (fun x =>
          (broadcastScan l).2.all (fun c => x.rid != c.rid))).isEmpty then none
        else some (l.filter (fun x =>
          (broadcastScan l).2.all (fun c => x.rid != c.rid)))) = _
    rw [hpred]
  · intro sid2 hs2
    rw [hout]
    exact lookupConns_foldRemove_other (broadcastScan l).2 m sid sid2 hs2

/-- A stream whose `write` raises, alongside a healthy stream. -/
def writeFailConn : SSEConn := ⟨1, false, false, true⟩

/-- C7 counterexample: when the write to stream 1 fails, the event is
still delivered to stream 2 and nothing aborts, but stream 1 is not
marked dead and not removed by the fan-out pass, so the claimed
mark-dead-and-remove behavior does not hold for write failures. -/
theorem claim_C7_counterexample :
    (broadcastToSession [("s", [writeFailConn, liveConn])] "s" "ev").2 = [2] ∧
    lookupConns (broadcastToSession [("s", [writeFailConn, liveConn])] "s" "ev").1 "s" =
      some [writeFailConn, liveConn] := by
  refine ⟨by decide, by decide⟩

/-- Witness for C7 on the concrete registry with one live and one
destroyed stream. -/
theorem claim_C7_witness :
    lookupConns (broadcastToSession sampleConnections "s" "ev").1 "s" =
      if (([liveConn, deadConn].filter (fun c => !(c.destroyed || c.finished))).isEmpty)
        then none
      else some ([liveConn, deadConn].filter (fun c => !(c.destroyed || c.finished))) :=
  (claim_C7_fanout_isolation sampleConnections "s" "ev" [liveConn, deadConn]
    (by decide) (by decide) (by decide) (by decide) (by decide)).2.1

end ResumeAnalyzer
